import Mathlib

/-!
Verification development for the poof background-removal client library.

The library (src/poof/__init__.py and src/poof/exceptions.py) is embedded
shallowly: each Python method becomes a pure Lean function, HTTP responses
become a record of the fields the code reads, exceptions become an error
type returned through Except, and the single outbound network call is made
visible as an explicit request trace so that the pre-network failure
contract can be stated.
-/

/-- Error kinds of the exception hierarchy in src/poof/exceptions.py.
The concrete subclasses add no behaviour; they are distinguished only by
which one the status-dispatch in Poof raises. -/
inductive ErrorKind where
  | authError
  | paymentRequiredError
  | permissionDeniedError
  | rateLimitError
  | validationError
  | serverError
  | poofError
deriving DecidableEq, Repr

/-- The structured payload of a raised PoofError (exceptions.py, PoofError
fields message, code, details, request_id, status_code), together with the
kind of the raised subclass. -/
structure RaisedError where
  kind : ErrorKind
  message : String
  code : String
  details : Option String
  request_id : Option String
  status_code : Nat
deriving DecidableEq, Repr

/-- The optional fields the error-handling code reads from a JSON error
body: error_data.get for code, message, details and request_id in
Poof._handle_error. A field is none when the key is absent from the JSON
object. -/
structure ErrorBody where
  code : Option String
  message : Option String
  details : Option String
  request_id : Option String
deriving DecidableEq, Repr

/-- An HTTP response, restricted to the fields the client reads:
status_code, the body as bytes (content) and as text, the result of
attempting response.json() when it yields a JSON object (jsonObject is
none when parsing raises or the parsed value is not an object, in which
case the .get calls in the try block raise and the except branch runs),
and the individual response headers the code looks up. -/
structure Response where
  status_code : Nat
  content : List Nat
  text : String
  jsonObject : Option ErrorBody
  contentType : Option String
  xRequestID : Option String
  xProcessingTimeMs : Option String
  xImageWidth : Option String
  xImageHeight : Option String
deriving DecidableEq, Repr

/-- Poof._handle_error: parse the error body (with the documented fallback
when the body does not parse into a JSON object), then dispatch on the
status code. In Python this function always raises; here it totally
returns the RaisedError that is raised. -/
def handle_error (r : Response) : RaisedError :=
  let fields : String × String × Option String × Option String :=
    match r.jsonObject with
    | some obj =>
        (obj.code.getD "unknown_error",
         obj.message.getD "Unknown error",
         obj.details,
         obj.request_id)
    | none =>
        ("unknown_error",
         (if r.text = "" then "HTTP " ++ toString r.status_code else r.text),
         none,
         r.xRequestID)
  let kind : ErrorKind :=
    if r.status_code = 401 then .authError
    else if r.status_code = 402 then .paymentRequiredError
    else if r.status_code = 403 then .permissionDeniedError
    else if r.status_code = 429 then .rateLimitError
    else if r.status_code = 400 then .validationError
    else if r.status_code ≥ 500 then .serverError
    else .poofError
  { kind := kind
    message := fields.2.1
    code := fields.1
    details := fields.2.2.1
    request_id := fields.2.2.2
    status_code := r.status_code }

/-- The status-to-kind table as written in the specification (section 4.2),
stated independently of the code so the two can be compared. -/
def statusKindSpec (s : Nat) : ErrorKind :=
  if s = 401 then .authError
  else if s = 402 then .paymentRequiredError
  else if s = 403 then .permissionDeniedError
  else if s = 429 then .rateLimitError
  else if s = 400 then .validationError
  else if 500 ≤ s then .serverError
  else .poofError

/-- Errors the embedded client operations can raise. valueError covers the
ValueError raised by int() on a non-numeric string and by the constructor
on an empty api_key; poofError wraps the typed API errors raised by
handle_error. -/
inductive PyException where
  | fileNotFoundError (msg : String)
  | typeError (msg : String)
  | valueError
  | poofError (e : RaisedError)
deriving DecidableEq, Repr

/-- Value of a decimal digit character. -/
def digitVal (c : Char) : Nat := c.toNat - 48

/-- Natural number denoted by a list of decimal digit characters. -/
def digitsToNat (l : List Char) : Nat :=
  l.foldl (fun acc c => acc * 10 + digitVal c) 0

/-- Strip leading and trailing whitespace from a character list, as int()
does before parsing. -/
def stripWS (l : List Char) : List Char :=
  ((l.dropWhile Char.isWhitespace).reverse.dropWhile Char.isWhitespace).reverse

/-- Model of Python int(s) on a string: surrounding whitespace is
stripped, an optional single leading sign is allowed, and the rest must be
one or more decimal digits; any other string raises ValueError, modelled
as none. -/
def pyIntOfString (s : String) : Option Int :=
  let cs := stripWS s.data
  match cs with
  | [] => none
  | c :: rest =>
    if c = '-' then
      if rest ≠ [] ∧ rest.all Char.isDigit then some (-(digitsToNat rest : Int)) else none
    else if c = '+' then
      if rest ≠ [] ∧ rest.all Char.isDigit then some ((digitsToNat rest : Int)) else none
    else
      if cs.all Char.isDigit then some ((digitsToNat cs : Int)) else none

/-- The metadata-header conversion in Poof.remove_background:
int(h) if h else None. A missing header or one whose value is the empty
string (falsy in Python) yields None; otherwise int() is applied to the
value and raises ValueError when it is not numeric. -/
def parse_metadata_int (h : Option String) : Except PyException (Option Int) :=
  match h with
  | none => .ok none
  | some s =>
    if s = "" then .ok none
    else
      match pyIntOfString s with
      | some n => .ok (some n)
      | none => .error .valueError

/-- RemoveBackgroundResult from src/poof/__init__.py: the response bytes
plus metadata parsed from response headers, each metadata field
independently nullable. -/
structure RemoveBackgroundResult where
  data : List Nat
  content_type : Option String
  request_id : Option String
  processing_time_ms : Option Int
  width : Option Int
  height : Option Int
deriving DecidableEq, Repr

/-- The 200-path of Poof.remove_background: build the
RemoveBackgroundResult from the response body and headers, evaluating the
three int conversions in the order the constructor arguments are written
(processing_time_ms, then width, then height), so the first failing
conversion raises. -/
def build_result (r : Response) : Except PyException RemoveBackgroundResult := do
  let pt ← parse_metadata_int r.xProcessingTimeMs
  let w ← parse_metadata_int r.xImageWidth
  let h ← parse_metadata_int r.xImageHeight
  .ok { data := r.content
        content_type := r.contentType
        request_id := r.xRequestID
        processing_time_ms := pt
        width := w
        height := h }

/-- The local filesystem, as far as Poof._prepare_image observes it: a
finite map from paths to file contents. A path exists exactly when it is
in the map. -/
structure Filesystem where
  entries : List (String × List Nat)
deriving DecidableEq, Repr

/-- Look up a path on the filesystem (Path.exists plus read_bytes). -/
def fsLookup (fs : Filesystem) (p : String) : Option (List Nat) :=
  (fs.entries.find? (fun e => e.1 = p)).map Prod.snd

/-- The ImageInput union accepted by Poof._prepare_image. str and Path
arguments both take the path branch, so they collapse to one variant; a
file-like object carries an optional name attribute (none when the
attribute is absent or is not a str or Path) and the bytes its read method
yields; other stands for any argument of any other type, carrying the
Python type name used in the TypeError message. -/
inductive ImageInput where
  | path (p : String)
  | bytesInput (b : List Nat)
  | stream (name : Option String) (content : List Nat)
  | other (typeName : String)
deriving DecidableEq, Repr

/-- Split a character list on a separator character; like str.split with
an explicit separator, the result always has one more element than the
number of separators. -/
def splitChar (sep : Char) : List Char → List (List Char)
  | [] => [[]]
  | c :: rest =>
    if c = sep then [] :: splitChar sep rest
    else
      match splitChar sep rest with
      | [] => [[c]]
      | h :: t => (c :: h) :: t

/-- Last component of a path: the Path(x).name used for the upload
filename (posix separators). -/
def pathName (p : String) : String :=
  match (splitChar '/' p.data).getLast? with
  | some s => ⟨s⟩
  | none => p

/-- Model of mimetypes.guess_type(filename)[0]: look the lowercased part
after the last dot up in the standard table; none when the extension is
unknown or the filename has no dot. Only common image types are
tabulated; the claims depend only on the some/none distinction and the
fallback. -/
def guess_type (filename : String) : Option String :=
  match splitChar '.' filename.data with
  | [] => none
  | [_] => none
  | parts =>
    match parts.getLast? with
    | none => none
    | some ext =>
      let e := ext.map Char.toLower
      if e = "png".data then some "image/png"
      else if e = "jpg".data then some "image/jpeg"
      else if e = "jpeg".data then some "image/jpeg"
      else if e = "webp".data then some "image/webp"
      else if e = "gif".data then some "image/gif"
      else if e = "bmp".data then some "image/bmp"
      else if e = "tiff".data then some "image/tiff"
      else none

/-- Poof._prepare_image: resolve an ImageInput into the
(filename, data, content_type) triple, raising FileNotFoundError for a
missing path and TypeError for an unsupported argument type, in both cases
before anything else happens. -/
def prepare_image (fs : Filesystem) (image : ImageInput) :
    Except PyException (String × List Nat × String) :=
  match image with
  | .path p =>
    match fsLookup fs p with
    | none => .error (.fileNotFoundError ("Image file not found: " ++ p))
    | some data =>
      let filename := pathName p
      .ok (filename, data, (guess_type filename).getD "application/octet-stream")
  | .bytesInput b => .ok ("image", b, "application/octet-stream")
  | .stream name content =>
    let filename := match name with
      | some n => pathName n
      | none => "image"
    .ok (filename, content, (guess_type filename).getD "application/octet-stream")
  | .other typeName =>
    .error (.typeError
      ("image must be a file path, bytes, or file-like object, got " ++ typeName))

/-- The keyword options of Poof.remove_background; none means the caller
left the argument unset. -/
structure RemoveBackgroundOptions where
  format : Option String
  channels : Option String
  bg_color : Option String
  size : Option String
  crop : Option Bool
deriving DecidableEq, Repr

/-- The form_data dict built by Poof.remove_background, as the ordered
list of key-value pairs inserted: one entry per explicitly set option,
with crop rendered by str(crop).lower() as true or false. -/
def build_form_data (o : RemoveBackgroundOptions) : List (String × String) :=
  (match o.format with | some f => [("format", f)] | none => []) ++
  (match o.channels with | some c => [("channels", c)] | none => []) ++
  (match o.bg_color with | some b => [("bg_color", b)] | none => []) ++
  (match o.size with | some s => [("size", s)] | none => []) ++
  (match o.crop with
   | some c => [("crop", if c then "true" else "false")]
   | none => [])

/-- The outbound multipart request body: the files dict (field name to
(filename, bytes, content_type)) and the form fields. -/
structure MultipartBody where
  files : List (String × (String × List Nat × String))
  form : List (String × String)
deriving DecidableEq, Repr

/-- Outcome of one remove_background call: the returned result or raised
exception, together with the trace of network requests issued (the post
call appears here exactly when control reaches it). -/
structure CallTrace where
  result : Except PyException RemoveBackgroundResult
  requests : List MultipartBody
deriving Repr

/-- Poof.remove_background: prepare the image (its exceptions propagate
before any network call), build the multipart body, issue the single post
(the response is supplied as an argument, standing for the transport),
then either map a non-200 status through handle_error or build the
result. -/
def remove_background (fs : Filesystem) (image : ImageInput)
    (opts : RemoveBackgroundOptions) (response : Response) : CallTrace :=
  match prepare_image fs image with
  | .error e => { result := .error e, requests := [] }
  | .ok (filename, data, content_type) =>
    let body : MultipartBody :=
      { files := [("image_file", (filename, data, content_type))]
        form := build_form_data opts }
    let res : Except PyException RemoveBackgroundResult :=
      if response.status_code ≠ 200 then
        .error (.poofError (handle_error response))
      else
        build_result response
    { result := res, requests := [body] }

/-- Strip every trailing slash character from a reversed character list
(the helper for rstrip). -/
def rstripSlashAux : List Char → List Char
  | [] => []
  | c :: rest => if c = '/' then rstripSlashAux rest else c :: rest

/-- base_url.rstrip of the slash character: remove all trailing path
separators. -/
def rstripSlash (s : String) : String :=
  ⟨(rstripSlashAux s.data.reverse).reverse⟩

/-- The transport handle held by a client: either one the client created
itself (httpx.Client configured with the timeout) or the caller-supplied
one, identified by an abstract handle id. -/
inductive TransportHandle where
  | created (timeout : Nat)
  | supplied (h : Nat)
deriving DecidableEq, Repr

/-- The state a successfully constructed Poof client holds. -/
structure PoofClient where
  api_key : String
  base_url : String
  timeout : Nat
  owns_client : Bool
  client : TransportHandle
deriving DecidableEq, Repr

/-- Poof constructor: raise ValueError on an empty (falsy) api_key before
anything else, otherwise store the credential, the base_url with trailing
slashes stripped, and either the caller-supplied transport handle (not
owned) or a freshly created one (owned). The Bool records whether a new
transport handle was created during construction. -/
def poofInit (api_key base_url : String) (timeout : Nat)
    (httpx_client : Option Nat) : Except PyException PoofClient × Bool :=
  if api_key = "" then
    (.error .valueError, false)
  else
    match httpx_client with
    | some h =>
      (.ok { api_key := api_key, base_url := rstripSlash base_url,
             timeout := timeout, owns_client := false,
             client := .supplied h }, false)
    | none =>
      (.ok { api_key := api_key, base_url := rstripSlash base_url,
             timeout := timeout, owns_client := true,
             client := .created timeout }, true)

/-- Poof.close: close the underlying transport handle only when the
client owns it. The return value is the handle whose close method was
invoked, none when no handle was closed. -/
def poofClose (c : PoofClient) : Option TransportHandle :=
  if c.owns_client then some c.client else none

/-- The scoped-usage exit path: Poof.__exit__ simply calls close on every
exit, including exits caused by an exception. -/
def poofExit (c : PoofClient) : Option TransportHandle :=
  poofClose c


/-- First value stored under a key in the ordered form-field list (dict
lookup on the dict built by remove_background). -/
def findField (k : String) : List (String × String) → Option String
  | [] => none
  | (a, v) :: rest => if a = k then some v else findField k rest

/-- Spec-side predicate: a metadata header that the header-parsing table
of the specification handles without error, that is, one that is absent,
empty, or numeric. -/
def headerOk (h : Option String) : Bool :=
  match h with
  | none => true
  | some s => s = "" || (pyIntOfString s).isSome

/-- Spec-side interpretation of a metadata header: absent or empty gives
none, otherwise the parsed integer. -/
def headerInterp (h : Option String) : Option Int :=
  match h with
  | none => none
  | some s => if s = "" then none else pyIntOfString s

/-- parse_metadata_int agrees with the spec-side interpretation on every
header value it accepts. -/
theorem parse_metadata_int_of_headerOk (h : Option String)
    (hok : headerOk h = true) : parse_metadata_int h = .ok (headerInterp h) := by
  cases h with
  | none => rfl
  | some s =>
    simp only [headerOk, Bool.or_eq_true, decide_eq_true_eq] at hok
    by_cases hs : s = ""
    · simp [parse_metadata_int, headerInterp, hs]
    · rcases hok with hok | hok
      · exact absurd hok hs
      · rcases Option.isSome_iff_exists.mp hok with ⟨n, hn⟩
        simp [parse_metadata_int, headerInterp, hs, hn]

/-- Every trailing run of slashes is what rstripSlashAux removes from the
reversed character list. -/
theorem rstripSlashAux_replicate (l : List Char) :
    ∃ n, l = List.replicate n '/' ++ rstripSlashAux l := by
  induction l with
  | nil => exact ⟨0, rfl⟩
  | cons c rest ih =>
    by_cases hc : c = '/'
    · obtain ⟨n, hn⟩ := ih
      subst hc
      refine ⟨n + 1, ?_⟩
      rw [show rstripSlashAux ('/' :: rest) = rstripSlashAux rest from by
            simp [rstripSlashAux],
          List.replicate_succ, List.cons_append]
      exact congrArg _ hn
    · exact ⟨0, by simp [rstripSlashAux, hc]⟩

/-- The first character remaining after rstripSlashAux is never a slash. -/
theorem rstripSlashAux_head (l : List Char) (c : Char)
    (h : (rstripSlashAux l).head? = some c) : c ≠ '/' := by
  induction l with
  | nil => simp [rstripSlashAux] at h
  | cons a rest ih =>
    by_cases ha : a = '/'
    · rw [show rstripSlashAux (a :: rest) = rstripSlashAux rest from by
            simp [rstripSlashAux, ha]] at h
      exact ih h
    · rw [show rstripSlashAux (a :: rest) = a :: rest from by
            simp [rstripSlashAux, ha]] at h
      simp only [List.head?_cons, Option.some.injEq] at h
      rw [← h]
      exact ha

/-- rstripSlash removes exactly the trailing slashes of a string: the
input is the output followed by some run of slashes, and the output does
not end in a slash. -/
theorem rstripSlash_spec (s : String) :
    (∃ n, s.data = (rstripSlash s).data ++ List.replicate n '/') ∧
    (∀ c, (rstripSlash s).data.getLast? = some c → c ≠ '/') := by
  constructor
  · obtain ⟨n, hn⟩ := rstripSlashAux_replicate s.data.reverse
    refine ⟨n, ?_⟩
    have h2 := congrArg List.reverse hn
    simp only [List.reverse_reverse, List.reverse_append,
      List.reverse_replicate] at h2
    exact h2
  · intro c hc
    apply rstripSlashAux_head s.data.reverse c
    rw [show (rstripSlash s).data = (rstripSlashAux s.data.reverse).reverse
          from rfl, List.getLast?_reverse] at hc
    exact hc

/-- A 401 response with a well-formed JSON error body. -/
def respAuth : Response :=
  { status_code := 401, content := [], text := "auth",
    jsonObject := some { code := some "bad_key", message := some "Invalid API key",
                         details := none, request_id := some "req-1" },
    contentType := none, xRequestID := none,
    xProcessingTimeMs := none, xImageWidth := none, xImageHeight := none }

/-- A 503 response whose body is empty and does not parse as JSON. -/
def respEmptyBody : Response :=
  { status_code := 503, content := [], text := "",
    jsonObject := none,
    contentType := none, xRequestID := some "r-7",
    xProcessingTimeMs := none, xImageWidth := none, xImageHeight := none }

/-- A 418 response whose JSON body lacks the code and message keys but
carries a request_id, while a different request id sits in the
X-Request-ID header. -/
def respTeapot : Response :=
  { status_code := 418, content := [], text := "{}",
    jsonObject := some { code := none, message := none,
                         details := none, request_id := some "body-id" },
    contentType := none, xRequestID := some "header-id",
    xProcessingTimeMs := none, xImageWidth := none, xImageHeight := none }

/-- A 200 response carrying the three numeric metadata headers of the
specification test (120, 800, 600). -/
def respGood : Response :=
  { status_code := 200, content := [137, 80, 78, 71], text := "",
    jsonObject := none,
    contentType := some "image/png", xRequestID := some "req-42",
    xProcessingTimeMs := some "120", xImageWidth := some "800",
    xImageHeight := some "600" }

/-- A 200 response whose X-Image-Width header holds the non-numeric,
non-empty value abc. -/
def respBadWidth : Response :=
  { status_code := 200, content := [1, 2, 3], text := "",
    jsonObject := none,
    contentType := some "image/png", xRequestID := none,
    xProcessingTimeMs := some "120", xImageWidth := some "abc",
    xImageHeight := some "600" }

/-- A 200 response in which all three metadata headers are present with
empty string values. -/
def respEmptyHeaders : Response :=
  { status_code := 200, content := [5], text := "",
    jsonObject := none,
    contentType := some "image/png", xRequestID := none,
    xProcessingTimeMs := some "", xImageWidth := some "",
    xImageHeight := some "" }

/-- The option set with every argument left unset. -/
def optsNone : RemoveBackgroundOptions :=
  { format := none, channels := none, bg_color := none, size := none, crop := none }

/-- An option set with format, size and crop explicitly given. -/
def optsW : RemoveBackgroundOptions :=
  { format := some "png", channels := none, bg_color := none,
    size := some "preview", crop := some true }

/-- Claim C1: for every response with status other than 200, the error
raised by handle_error has the kind given exactly and exhaustively by the
status table of section 4.2 (statusKindSpec, stated from the
specification), carries the literal HTTP status code, and, when the body
is a well-formed JSON error object, carries its message, code, details
and request_id exactly; the error path never returns normally, since
handle_error is total into RaisedError and remove_background turns its
output into a raised error whenever the status differs from 200. -/
theorem C1_status_error_mapping (r : Response) (hs : r.status_code ≠ 200) :
    (handle_error r).kind = statusKindSpec r.status_code ∧
    (handle_error r).status_code = r.status_code ∧
    (∀ c m d rid,
      r.jsonObject = some { code := some c, message := some m,
                            details := d, request_id := rid } →
      (handle_error r).message = m ∧ (handle_error r).code = c ∧
      (handle_error r).details = d ∧ (handle_error r).request_id = rid) ∧
    (∀ fs image opts t, prepare_image fs image = .ok t →
      (remove_background fs image opts r).result =
        .error (.poofError (handle_error r))) := by
  refine ⟨rfl, rfl, ?_, ?_⟩
  · intro c m d rid hj
    simp [handle_error, hj]
  · intro fs image opts t hp
    obtain ⟨fn, dt, ct⟩ := t
    simp [remove_background, hp, hs]

/-- Witness for C1 at the concrete 401 response respAuth. -/
theorem C1_status_error_mapping_witness :
    (handle_error respAuth).kind = statusKindSpec 401 ∧
    (handle_error respAuth).status_code = 401 ∧
    (handle_error respAuth).message = "Invalid API key" ∧
    (handle_error respAuth).code = "bad_key" ∧
    (handle_error respAuth).details = none ∧
    (handle_error respAuth).request_id = some "req-1" := by
  have h := C1_status_error_mapping respAuth (by decide)
  have hf := h.2.2.1 "bad_key" "Invalid API key" none (some "req-1") rfl
  exact ⟨h.1, h.2.1, hf.1, hf.2.1, hf.2.2.1, hf.2.2.2⟩

/-- Claim C3: for every non-200 response whose body does not parse into a
JSON object, the raised error has code unknown_error, message equal to
the raw body text or the synthesized HTTP-status string when the text is
empty, null details, and request_id taken from the X-Request-ID header
when present. -/
theorem C3_unparseable_body (r : Response) (hs : r.status_code ≠ 200)
    (hj : r.jsonObject = none) :
    (handle_error r).code = "unknown_error" ∧
    (handle_error r).message =
      (if r.text = "" then "HTTP " ++ toString r.status_code else r.text) ∧
    (handle_error r).details = none ∧
    (handle_error r).request_id = r.xRequestID := by
  simp [handle_error, hj]

/-- Witness for C3 at the concrete 503 response with empty body. -/
theorem C3_unparseable_body_witness :
    (handle_error respEmptyBody).code = "unknown_error" ∧
    (handle_error respEmptyBody).message = "HTTP 503" ∧
    (handle_error respEmptyBody).details = none ∧
    (handle_error respEmptyBody).request_id = some "r-7" := by
  have h := C3_unparseable_body respEmptyBody (by decide) rfl
  exact ⟨h.1, h.2.1, h.2.2.1, h.2.2.2⟩

/-- Claim C9: for every non-200 response whose body parses into a JSON
object lacking the code or message key, the raised error defaults code to
unknown_error and message to Unknown error, and its request_id comes only
from the JSON body: it equals the body value whatever the X-Request-ID
header holds. -/
theorem C9_json_object_defaults (r : Response) (obj : ErrorBody)
    (hs : r.status_code ≠ 200) (hj : r.jsonObject = some obj)
    (hc : obj.code = none) (hm : obj.message = none) :
    (handle_error r).code = "unknown_error" ∧
    (handle_error r).message = "Unknown error" ∧
    (handle_error r).request_id = obj.request_id ∧
    (∀ hdr, (handle_error { r with xRequestID := hdr }).request_id =
      obj.request_id) := by
  refine ⟨?_, ?_, ?_, ?_⟩
  · simp [handle_error, hj, hc]
  · simp [handle_error, hj, hm]
  · simp [handle_error, hj]
  · intro hdr
    simp [handle_error, hj]

/-- Witness for C9 at the concrete 418 response whose JSON body lacks
code and message: the defaults apply and the body request id wins over
the header one. -/
theorem C9_json_object_defaults_witness :
    (handle_error respTeapot).code = "unknown_error" ∧
    (handle_error respTeapot).message = "Unknown error" ∧
    (handle_error respTeapot).request_id = some "body-id" ∧
    (handle_error { respTeapot with xRequestID := none }).request_id =
      some "body-id" := by
  have h := C9_json_object_defaults respTeapot
    { code := none, message := none, details := none, request_id := some "body-id" }
    (by decide) rfl rfl rfl
  exact ⟨h.1, h.2.1, h.2.2.1, h.2.2.2 none⟩

/-- Counterexample to claim C2 as stated: at the concrete 200 response
respBadWidth, the X-Image-Width header is present with the non-numeric
value abc, and building the result raises ValueError instead of yielding
a null width, because int is applied to every truthy header value. -/
theorem C2_counterexample_nonnumeric_header :
    respBadWidth.status_code = 200 ∧
    respBadWidth.xImageWidth = some "abc" ∧
    build_result respBadWidth = .error .valueError ∧
    (remove_background ⟨[]⟩ (.bytesInput [0]) optsNone respBadWidth).result =
      .error .valueError :=
  ⟨rfl, rfl, rfl, rfl⟩

/-- Claim C2 as amended: for every 200 response, the metadata fields are
parsed from the three numeric headers, a missing header or an empty
header value yields none for that field without an error, and only the
body bytes are guaranteed non-null; but a present, non-empty, non-numeric
header value raises ValueError rather than yielding none. -/
theorem C2_metadata_headers_amended (r : Response) :
    (headerOk r.xProcessingTimeMs = true → headerOk r.xImageWidth = true →
      headerOk r.xImageHeight = true →
      build_result r = .ok
        { data := r.content
          content_type := r.contentType
          request_id := r.xRequestID
          processing_time_ms := headerInterp r.xProcessingTimeMs
          width := headerInterp r.xImageWidth
          height := headerInterp r.xImageHeight }) ∧
    (∀ s, r.xProcessingTimeMs = some s → s ≠ "" → pyIntOfString s = none →
      build_result r = .error .valueError) := by
  constructor
  · intro h1 h2 h3
    rw [build_result, parse_metadata_int_of_headerOk _ h1,
      parse_metadata_int_of_headerOk _ h2, parse_metadata_int_of_headerOk _ h3]
    rfl
  · intro s hps hs hnum
    rw [build_result, hps]
    simp [parse_metadata_int, hs, hnum, bind, Except.bind]

/-- Witness for the amended C2 at the concrete response of the
specification test: headers 120, 800 and 600 yield exactly those
metadata values. -/
theorem C2_metadata_headers_amended_witness :
    build_result respGood = .ok
      { data := respGood.content
        content_type := respGood.contentType
        request_id := respGood.xRequestID
        processing_time_ms := headerInterp respGood.xProcessingTimeMs
        width := headerInterp respGood.xImageWidth
        height := headerInterp respGood.xImageHeight } :=
  (C2_metadata_headers_amended respGood).1 (by decide) (by decide) (by decide)

/-- Claim C10: a metadata header present with the empty string as value
behaves exactly as an absent header: the corresponding field is none and
no error is raised. -/
theorem C10_empty_header_like_absent (r : Response) :
    (r.xProcessingTimeMs = some "" →
      build_result r = build_result { r with xProcessingTimeMs := none }) ∧
    (r.xImageWidth = some "" →
      build_result r = build_result { r with xImageWidth := none }) ∧
    (r.xImageHeight = some "" →
      build_result r = build_result { r with xImageHeight := none }) ∧
    (r.xProcessingTimeMs = some "" → r.xImageWidth = some "" →
      r.xImageHeight = some "" →
      build_result r = .ok
        { data := r.content
          content_type := r.contentType
          request_id := r.xRequestID
          processing_time_ms := none
          width := none
          height := none }) := by
  refine ⟨?_, ?_, ?_, ?_⟩
  · intro h
    simp [build_result, parse_metadata_int, h]
  · intro h
    simp [build_result, parse_metadata_int, h]
  · intro h
    simp [build_result, parse_metadata_int, h]
  · intro h1 h2 h3
    simp [build_result, parse_metadata_int, h1, h2, h3, bind, Except.bind]

/-- Witness for C10 at the concrete 200 response whose three metadata
headers are all present and empty. -/
theorem C10_empty_header_like_absent_witness :
    build_result respEmptyHeaders = .ok
      { data := respEmptyHeaders.content
        content_type := respEmptyHeaders.contentType
        request_id := respEmptyHeaders.xRequestID
        processing_time_ms := none
        width := none
        height := none } :=
  (C10_empty_header_like_absent respEmptyHeaders).2.2.2 rfl rfl rfl

/-- Claim C4: every remove_background call sends exactly one file part
under the fixed field name image_file, and one form field per explicitly
set option: crop as the lowercase string true or false, the others as
their literal values; unset options contribute no field, since the keys
of the form list are a sublist of the five option names with each key
present exactly when its option is set. -/
theorem C4_multipart_body (fs : Filesystem) (image : ImageInput)
    (opts : RemoveBackgroundOptions) (r : Response)
    (filename : String) (data : List Nat) (ct : String)
    (hp : prepare_image fs image = .ok (filename, data, ct)) :
    (remove_background fs image opts r).requests =
      [{ files := [("image_file", (filename, data, ct))]
         form := build_form_data opts }] ∧
    findField "format" (build_form_data opts) = opts.format ∧
    findField "channels" (build_form_data opts) = opts.channels ∧
    findField "bg_color" (build_form_data opts) = opts.bg_color ∧
    findField "size" (build_form_data opts) = opts.size ∧
    findField "crop" (build_form_data opts) =
      opts.crop.map (fun c => if c then "true" else "false") ∧
    ((build_form_data opts).map Prod.fst).Sublist
      ["format", "channels", "bg_color", "size", "crop"] := by
  obtain ⟨f, c, b, s, cr⟩ := opts
  refine ⟨by simp [remove_background, hp], ?_⟩
  cases f <;> cases c <;> cases b <;> cases s <;> cases cr <;>
    simp [build_form_data, findField] <;> decide

/-- Witness for C4 at concrete bytes input and options with format, size
and crop set: the single file part is image_file, crop is sent as the
lowercase string true, and the unset channels option produces no field. -/
theorem C4_multipart_body_witness :
    (remove_background ⟨[]⟩ (.bytesInput [1, 2]) optsW respGood).requests =
      [{ files := [("image_file", ("image", [1, 2], "application/octet-stream"))]
         form := build_form_data optsW }] ∧
    findField "crop" (build_form_data optsW) = some "true" ∧
    findField "channels" (build_form_data optsW) = none ∧
    findField "format" (build_form_data optsW) = some "png" := by
  have h := C4_multipart_body ⟨[]⟩ (.bytesInput [1, 2]) optsW respGood
    "image" [1, 2] "application/octet-stream" rfl
  exact ⟨h.1, h.2.2.2.2.2.1, h.2.2.1, h.2.1⟩

/-- Claim C5: a path argument that does not exist raises
FileNotFoundError with no network call issued, and an argument that is
neither a path, nor bytes, nor an object with a read method raises
TypeError with no network call issued. -/
theorem C5_pre_network_failures (fs : Filesystem) (p typeName : String)
    (opts : RemoveBackgroundOptions) (r : Response)
    (hmiss : fsLookup fs p = none) :
    remove_background fs (.path p) opts r =
      { result := .error (.fileNotFoundError ("Image file not found: " ++ p))
        requests := [] } ∧
    remove_background fs (.other typeName) opts r =
      { result := .error (.typeError
          ("image must be a file path, bytes, or file-like object, got " ++ typeName))
        requests := [] } := by
  constructor
  · simp [remove_background, prepare_image, hmiss]
  · simp [remove_background, prepare_image]

/-- Witness for C5 on the empty filesystem: the missing path and an int
argument each fail before the request trace records any network call. -/
theorem C5_pre_network_failures_witness :
    remove_background ⟨[]⟩ (.path "missing.png") optsNone respGood =
      { result := .error (.fileNotFoundError "Image file not found: missing.png")
        requests := [] } ∧
    remove_background ⟨[]⟩ (.other "int") optsNone respGood =
      { result := .error (.typeError
          "image must be a file path, bytes, or file-like object, got int")
        requests := [] } :=
  C5_pre_network_failures ⟨[]⟩ "missing.png" "int" optsNone respGood rfl

/-- Claim C6: constructing a client with an empty credential raises
ValueError at once and no transport handle is created (the creation flag
of poofInit stays false); with a non-empty credential construction
succeeds and stores the base endpoint with its trailing slashes removed,
rstripSlash being exactly the removal of the trailing run of slashes. -/
theorem C6_constructor_contract (api_key base_url : String) (timeout : Nat)
    (hc : Option Nat) (hk : api_key ≠ "") :
    poofInit "" base_url timeout hc = (.error .valueError, false) ∧
    (∃ cl, (poofInit api_key base_url timeout hc).1 = .ok cl ∧
      cl.api_key = api_key ∧ cl.base_url = rstripSlash base_url) ∧
    (∃ n, base_url.data = (rstripSlash base_url).data ++ List.replicate n '/') ∧
    (∀ c, (rstripSlash base_url).data.getLast? = some c → c ≠ '/') := by
  refine ⟨rfl, ?_, (rstripSlash_spec base_url).1, (rstripSlash_spec base_url).2⟩
  cases hc with
  | none =>
    refine ⟨{ api_key := api_key, base_url := rstripSlash base_url,
              timeout := timeout, owns_client := true,
              client := .created timeout }, ?_, rfl, rfl⟩
    simp [poofInit, hk]
  | some h =>
    refine ⟨{ api_key := api_key, base_url := rstripSlash base_url,
              timeout := timeout, owns_client := false,
              client := .supplied h }, ?_, rfl, rfl⟩
    simp [poofInit, hk]

/-- Witness for C6 at a concrete credential and a base endpoint with one
trailing slash. -/
theorem C6_constructor_contract_witness :
    poofInit "" "https://api.poof.bg/v1/" 60 none = (.error .valueError, false) ∧
    (∃ cl, (poofInit "key" "https://api.poof.bg/v1/" 60 none).1 = .ok cl ∧
      cl.api_key = "key" ∧ cl.base_url = rstripSlash "https://api.poof.bg/v1/") ∧
    rstripSlash "https://api.poof.bg/v1/" = "https://api.poof.bg/v1" := by
  have h := C6_constructor_contract "key" "https://api.poof.bg/v1/" 60 none
    (by decide)
  exact ⟨h.1, h.2.1, by decide⟩

/-- Claim C7: on close, and on exit from the scoped usage pattern, the
client closes the underlying transport handle exactly when it created
that handle itself: a client constructed without a caller-supplied handle
owns and closes its created handle, while a client given one never closes
it. -/
theorem C7_close_ownership (api_key base_url : String) (timeout hnd : Nat)
    (hk : api_key ≠ "") :
    (∀ cl, (poofInit api_key base_url timeout none).1 = .ok cl →
      cl.owns_client = true ∧ cl.client = .created timeout ∧
      poofClose cl = some cl.client ∧ poofExit cl = some cl.client) ∧
    (∀ cl, (poofInit api_key base_url timeout (some hnd)).1 = .ok cl →
      cl.owns_client = false ∧ cl.client = .supplied hnd ∧
      poofClose cl = none ∧ poofExit cl = none) := by
  constructor
  · intro cl hcl
    simp [poofInit, hk] at hcl
    rw [← hcl]
    exact ⟨rfl, rfl, rfl, rfl⟩
  · intro cl hcl
    simp [poofInit, hk] at hcl
    rw [← hcl]
    exact ⟨rfl, rfl, rfl, rfl⟩

/-- Witness for C7 at concrete constructions: the self-created handle is
closed on exit, the caller-supplied one is not. -/
theorem C7_close_ownership_witness :
    poofExit { api_key := "key", base_url := "u", timeout := 60,
               owns_client := true, client := .created 60 } =
      some (.created 60) ∧
    poofExit { api_key := "key", base_url := "u", timeout := 60,
               owns_client := false, client := .supplied 5 } = none := by
  have h := C7_close_ownership "key" "u" 60 5 (by decide)
  exact ⟨(h.1 _ rfl).2.2.2, (h.2 _ rfl).2.2.2⟩

/-- Claim C8: whenever _prepare_image resolves an input, the content-type
of the triple is never null: it equals the guessed MIME type of the
resolved filename when one exists and falls back to
application/octet-stream otherwise (raw bytes always get the fallback);
and resolution hands back caller-owned data unchanged: the bytes of a
bytes input, the bytes a stream yields, and the exact file contents of a
path, the embedding itself being a pure function that can mutate
nothing. -/
theorem C8_content_type_fallback (fs : Filesystem) (image : ImageInput)
    (filename : String) (data : List Nat) (ct : String)
    (hp : prepare_image fs image = .ok (filename, data, ct)) :
    (guess_type filename = none → ct = "application/octet-stream") ∧
    (∀ g, guess_type filename = some g → ct = g) ∧
    (∀ b, image = .bytesInput b →
      data = b ∧ ct = "application/octet-stream") ∧
    (∀ nm content, image = .stream nm content → data = content) ∧
    (∀ p, image = .path p → fsLookup fs p = some data) := by
  cases image with
  | path p =>
    rw [prepare_image] at hp
    cases hfs : fsLookup fs p with
    | none => rw [hfs] at hp; exact absurd hp (by simp)
    | some d =>
      rw [hfs] at hp
      simp only [Except.ok.injEq, Prod.mk.injEq] at hp
      obtain ⟨h1, h2, h3⟩ := hp
      subst h1
      subst h2
      subst h3
      refine ⟨?_, ?_, ?_, ?_, ?_⟩
      · intro hg
        rw [hg]
        rfl
      · intro g hg
        rw [hg]
        rfl
      · intro b hb
        cases hb
      · intro nm content hb
        cases hb
      · intro q hq
        cases hq
        exact hfs
  | bytesInput b =>
    rw [prepare_image] at hp
    simp only [Except.ok.injEq, Prod.mk.injEq] at hp
    obtain ⟨h1, h2, h3⟩ := hp
    subst h1
    subst h2
    subst h3
    refine ⟨?_, ?_, ?_, ?_, ?_⟩
    · intro _
      rfl
    · intro g hg
      rw [show guess_type "image" = none from by decide] at hg
      exact Option.noConfusion hg
    · intro b2 hb
      cases hb
      exact ⟨rfl, rfl⟩
    · intro nm content hb
      cases hb
    · intro q hq
      cases hq
  | stream nm content =>
    simp only [prepare_image, Except.ok.injEq, Prod.mk.injEq] at hp
    obtain ⟨h1, h2, h3⟩ := hp
    subst h1
    subst h2
    subst h3
    refine ⟨?_, ?_, ?_, ?_, ?_⟩
    · intro hg
      rw [hg]
      rfl
    · intro g hg
      rw [hg]
      rfl
    · intro b hb
      cases hb
    · intro nm2 content2 hb
      cases hb
      rfl
    · intro q hq
      cases hq
  | other t =>
    simp [prepare_image] at hp

/-- Witness for C8 at a concrete path whose extension is unknown to the
MIME table: the hypothesis of the fallback clause holds concretely and
the resolved content-type is the generic binary type. -/
theorem C8_content_type_fallback_witness :
    guess_type "photo.xyz" = none ∧
    "application/octet-stream" = "application/octet-stream" :=
  ⟨by decide,
   (C8_content_type_fallback ⟨[("pics/photo.xyz", [9, 9])]⟩
      (.path "pics/photo.xyz") "photo.xyz" [9, 9] "application/octet-stream"
      rfl).1 (by decide)⟩
